import Mathlib

/-!
Verification of the embedding/dispatch bridge described in spec.md against the
declaration surface in src/pljava-so/src/main/include/pljava/Backend.h.

The only file under src/ is Backend.h, which declares
  void Backend_setJavaSecurity(bool trusted);
  int  Backend_setJavaLogLevel(int logLevel);
  #define PG_GETCONFIGOPTION(key)  (version-dependent GetConfigOption call)
The implementations (Backend.c and the rest of the bridge) are not under src/,
so the bridge's behaviour is modelled from the spec, faithful to its words;
the PG_GETCONFIGOPTION macro itself is embedded directly from Backend.h.
-/

namespace PLJava

/-- The two-tier trust model of the bridge: trusted (sandboxed) vs
untrusted (full access) execution postures. -/
inductive TrustTier
  | trusted
  | untrusted
  deriving DecidableEq, Repr

/-- Startup errors remembered by the Failed state: a required configuration
key was absent, or the embedded runtime failed to come up. -/
inductive StartErr
  | configMissing (key : String)
  | startupFailure
  deriving DecidableEq, Repr

/-- ProcessRuntimeState from the spec data model: one of Uninitialized,
Initializing, Ready, Failed, ShuttingDown; Failed remembers the startup
error. -/
inductive PRS
  | uninitialized
  | initializing
  | ready
  | failed (e : StartErr)
  | shuttingDown
  deriving DecidableEq, Repr

/-- A forward rank on ProcessRuntimeState: transitions are irreversible in
the forward direction. Ready and Failed are both terminal outcomes of
startup and share a rank; ShuttingDown is last. -/
def PRS.rank : PRS → Nat
  | .uninitialized => 0
  | .initializing => 1
  | .ready => 2
  | .failed _ => 2
  | .shuttingDown => 3

/-- The host configuration store: read-only, string-keyed pairs. -/
def HostStore : Type := List (String × String)

/-- Plain association-list lookup in the host configuration store. -/
def lookupKey : HostStore → String → Option String
  | [], _ => none
  | (k, v) :: rest, key => if k = key then some v else lookupKey rest key

/- Log Level Translator. -/

/-- Modelled from the spec: the host's ordered native severity levels
(the host is a database server with a notice level sitting between
informational and warning severities). -/
inductive HostLevel
  | debug
  | info
  | notice
  | warning
  | error
  | fatal
  deriving DecidableEq, Repr

/-- Index of a host level in its severity order (larger is more severe). -/
def HostLevel.idx : HostLevel → Nat
  | .debug => 0
  | .info => 1
  | .notice => 2
  | .warning => 3
  | .error => 4
  | .fatal => 5

/-- SeverityLevel from the spec data model: the common ordered scale
Debug < Info < Warning < Error < Fatal. -/
inductive Severity
  | sDebug
  | sInfo
  | sWarning
  | sError
  | sFatal
  deriving DecidableEq, Repr

/-- Index of a common severity level (larger is more severe). -/
def Severity.idx : Severity → Nat
  | .sDebug => 0
  | .sInfo => 1
  | .sWarning => 2
  | .sError => 3
  | .sFatal => 4

/-- Modelled from the spec: the managed runtime's ordered native levels
(a coarser scale than the host's). -/
inductive ManagedLevel
  | fine
  | mInfo
  | mWarning
  | severe
  deriving DecidableEq, Repr

/-- Index of a managed level in its severity order (larger is more severe). -/
def ManagedLevel.idx : ManagedLevel → Nat
  | .fine => 0
  | .mInfo => 1
  | .mWarning => 2
  | .severe => 3

/-- Modelled from the spec: the host-side projection table
toCommon(hostLevel) -> SeverityLevel. Total by construction. The host's
notice level sits between Info and Warning on the common scale; the tie
rounds toward the more severe level, Warning, never less. -/
def toCommon : HostLevel → Severity
  | .debug => .sDebug
  | .info => .sInfo
  | .notice => .sWarning
  | .warning => .sWarning
  | .error => .sError
  | .fatal => .sFatal

/-- Modelled from the spec: the managed-side projection table
fromCommon(level) -> managedLevel. Total by construction. The managed scale
has no point between Warning and Fatal, so Error and Fatal both round to
the most severe managed level. -/
def fromCommon : Severity → ManagedLevel
  | .sDebug => .fine
  | .sInfo => .mInfo
  | .sWarning => .mWarning
  | .sError => .severe
  | .sFatal => .severe

/-- Modelled from the spec: each host level's natural managed counterpart,
the managed level of equivalent meaning (for the host's notice level, whose
intent is informational, the counterpart is the managed info level). -/
def naturalManaged : HostLevel → ManagedLevel
  | .debug => .fine
  | .info => .mInfo
  | .notice => .mInfo
  | .warning => .mWarning
  | .error => .severe
  | .fatal => .severe

/-- Modelled from the spec and the declared signature
int Backend_setJavaLogLevel(int logLevel) at Backend.h line 30 (the
definition in Backend.c is not under src/): installs the new effective
verbosity threshold and returns the level that was in effect before the
call, so callers can save and restore the threshold. -/
def Backend_setJavaLogLevel (logLevel : Int) (current : Int) : Int × Int :=
  (current, logLevel)

/- Host configuration lookup via the PG_GETCONFIGOPTION macro. -/

/-- A host configuration variable: its value, and whether reading it is
restricted to privileged (superuser) callers. -/
structure GucVar where
  value : String
  privileged : Bool
  deriving DecidableEq, Repr

/-- Outcome of a host-side configuration lookup: the value, a null result
for an absent key, or a host error raised by the lookup. -/
inductive HostLookup
  | value (v : String)
  | nullAbsent
  | hostError
  deriving DecidableEq, Repr

/-- Association-list lookup of a host configuration variable. -/
def lookupGuc : List (String × GucVar) → String → Option GucVar
  | [], _ => none
  | (k, g) :: rest, key => if k = key then some g else lookupGuc rest key

/-- Modelled from the spec: the host's three-argument lookup
GetConfigOption(name, missing_ok, restrict_privileged) available on host
versions 9.1 and later (host code, not part of this repository). With
missing_ok false an unrecognized key raises a host error, otherwise a null
result; with restrict_privileged true a privileged-only variable raises a
host error for an insufficiently privileged caller instead of returning
its value. -/
def GetConfigOption3 (store : List (String × GucVar)) (callerPrivileged : Bool)
    (key : String) (missingOk restrictPrivileged : Bool) : HostLookup :=
  match lookupGuc store key with
  | none => if missingOk then .nullAbsent else .hostError
  | some g =>
      if restrictPrivileged && g.privileged && !callerPrivileged then .hostError
      else .value g.value

/-- Modelled from the spec: the host's two-argument lookup
GetConfigOption(name, restrict_superuser) on host versions 9.0.x (host
code, not part of this repository). An unrecognized key raises a host
error. -/
def GetConfigOption2 (store : List (String × GucVar)) (callerPrivileged : Bool)
    (key : String) (restrictPrivileged : Bool) : HostLookup :=
  match lookupGuc store key with
  | none => .hostError
  | some g =>
      if restrictPrivileged && g.privileged && !callerPrivileged then .hostError
      else .value g.value

/-- Modelled from the spec: the host's one-argument lookup
GetConfigOption(name) on host versions before 9.0 (host code, not part of
this repository). An unrecognized key raises a host error. -/
def GetConfigOption1 (store : List (String × GucVar)) (key : String) : HostLookup :=
  match lookupGuc store key with
  | none => .hostError
  | some g => .value g.value

/-- Embeds the PG_GETCONFIGOPTION macro from Backend.h lines 36 to 42:
on PG_VERSION_NUM >= 90100 it expands to GetConfigOption(key, false, true),
on PG_VERSION_NUM >= 90000 to GetConfigOption(key, true), and otherwise to
GetConfigOption(key). -/
def PG_GETCONFIGOPTION (pgVersionNum : Nat) (store : List (String × GucVar))
    (callerPrivileged : Bool) (key : String) : HostLookup :=
  if 90100 ≤ pgVersionNum then GetConfigOption3 store callerPrivileged key false true
  else if 90000 ≤ pgVersionNum then GetConfigOption2 store callerPrivileged key true
  else GetConfigOption1 store key

/- Runtime Embedder, Trust Policy Switch and Call Dispatcher. -/

/-- The startup parameters handed to the embedded runtime at startup: the
active trust posture and the configuration values read during startup. -/
structure RuntimeParams where
  posture : TrustTier
  values : List (String × String)
  deriving DecidableEq, Repr

/-- The process-wide bridge state: the single ProcessRuntimeState, the
posture selected by the Trust Policy Switch, a startup-attempt counter, a
routine-resolution counter, a routine-execution counter, and the startup
parameters the embedded runtime observed (none while it has not started). -/
structure BridgeState where
  prs : PRS
  posture : TrustTier
  startAttempts : Nat
  resolveCount : Nat
  execCount : Nat
  runtime : Option RuntimeParams
  deriving DecidableEq, Repr

/-- The state at process start: Uninitialized, no startup attempted, no
routine resolved or executed, runtime not started. -/
def initState : BridgeState :=
  { prs := .uninitialized, posture := .trusted, startAttempts := 0,
    resolveCount := 0, execCount := 0, runtime := none }

/-- Result of a Trust Policy Switch call: accepted, or a Misuse error. -/
inductive PostureResult
  | ok
  | misuse
  deriving DecidableEq, Repr

/-- Modelled from the spec: Backend_setJavaSecurity (declared at Backend.h
line 28; the definition in Backend.c is not under src/), the Trust Policy
Switch setPosture call. Callable only while ProcessRuntimeState is
Uninitialized; in any later state it signals a Misuse error and is a no-op
on the live runtime. -/
def Backend_setJavaSecurity (trusted : Bool) (s : BridgeState) :
    PostureResult × BridgeState :=
  match s.prs with
  | .uninitialized =>
      (.ok, { s with posture := if trusted then .trusted else .untrusted })
  | _ => (.misuse, s)

/-- Reads the required startup configuration keys through the Config
Bridge, returning the key-value pairs read, or the first missing key. -/
def readRequired (cfg : HostStore) : List String → Except String (List (String × String))
  | [] => .ok []
  | k :: ks =>
      match lookupKey cfg k with
      | none => .error k
      | some v =>
          match readRequired cfg ks with
          | .error k2 => .error k2
          | .ok rest => .ok ((k, v) :: rest)

/-- Terminal outcome of ensureReady: Ready, or Failed with the remembered
startup error. -/
inductive EnsureOutcome
  | ready
  | failed (e : StartErr)
  deriving DecidableEq, Repr

/-- Modelled from the spec: the Runtime Embedder contract
ensureReady() -> Ready | Failed (the implementation is not under src/).
The first call from Uninitialized performs the startup sequence: read the
required Config Bridge values, construct the startup parameters with the
active trust tier, start the managed runtime, and transition to Ready; a
missing required key transitions to Failed with the error remembered. From
Ready or Failed it returns the remembered outcome without retrying. The
Initializing and ShuttingDown branches are unreachable for ensureReady in
the single-threaded process model and conservatively report a failure
without touching the state. -/
def ensureReady (required : List String) (cfg : HostStore) (s : BridgeState) :
    EnsureOutcome × BridgeState :=
  match s.prs with
  | .uninitialized =>
      let s1 := { s with startAttempts := s.startAttempts + 1 }
      match readRequired cfg required with
      | .error k =>
          (.failed (.configMissing k), { s1 with prs := .failed (.configMissing k) })
      | .ok vals =>
          (.ready, { s1 with prs := .ready, runtime := some ⟨s.posture, vals⟩ })
  | .ready => (.ready, s)
  | .failed e => (.failed e, s)
  | .initializing => (.failed .startupFailure, s)
  | .shuttingDown => (.failed .startupFailure, s)

/-- Iterated ensureReady: the result of the (n+1)-th of a run of identical
ensureReady calls. -/
def ensureReadyN (required : List String) (cfg : HostStore) :
    Nat → BridgeState → EnsureOutcome × BridgeState
  | 0, s => ensureReady required cfg s
  | n + 1, s => ensureReadyN required cfg n (ensureReady required cfg s).2

/-- Outcome classification of one executed routine: a normal value, a
recoverable error raised inside the managed runtime, or a native-level
fault. -/
inductive RoutineOutcome
  | value (v : String)
  | managedError (msg : String)
  | nativeFault
  deriving DecidableEq, Repr

/-- What invoke hands back to the host: a normal result, an Initialization
error (startup failed), a recoverable host-level error carrying the managed
diagnostic, or a fatal fault surfaced to the host. -/
inductive InvokeResult
  | success (v : String)
  | initError
  | managedHostError (msg : String)
  | fatalFault
  deriving DecidableEq, Repr

/-- Modelled from the spec: the Call Dispatcher contract
invoke(routineIdentity, arguments) -> Result (the implementation is not
under src/). It first calls ensureReady; on Failed, the invocation fails
immediately with an Initialization error and no attempt is made to resolve
or run the routine. On Ready it resolves the routine (resolveCount grows),
executes it (execCount grows), and classifies the outcome: a normal value,
a managed error converted to a host-level error with the diagnostic
preserved, or a native fault surfaced as fatal, never downgraded. The
routines argument stands for the resolved behaviour of each routine
identity. -/
def invoke (required : List String) (cfg : HostStore)
    (routines : String → RoutineOutcome) (name : String) (s : BridgeState) :
    InvokeResult × BridgeState :=
  match ensureReady required cfg s with
  | (.failed _, s1) => (.initError, s1)
  | (.ready, s1) =>
      let s2 := { s1 with resolveCount := s1.resolveCount + 1,
                          execCount := s1.execCount + 1 }
      match routines name with
      | .value v => (.success v, s2)
      | .managedError m => (.managedHostError m, s2)
      | .nativeFault => (.fatalFault, s2)

/-- Modelled from the spec: teardown(), invoked at host-process exit;
transitions Ready or Failed to ShuttingDown and tolerates being called when
the runtime never reached Ready (a no-op in that case). The startup
parameters stay recorded for diagnostics. -/
def teardown (s : BridgeState) : BridgeState :=
  match s.prs with
  | .ready => { s with prs := .shuttingDown }
  | .failed _ => { s with prs := .shuttingDown }
  | _ => s

/-- One observable action against the bridge: a Trust Policy Switch call,
an ensureReady guard call, a routine invocation, or teardown. -/
inductive Act
  | setSec (trusted : Bool)
  | ensure (required : List String) (cfg : HostStore)
  | call (required : List String) (cfg : HostStore)
      (routines : String → RoutineOutcome) (name : String)
  | down

/-- The state after one action (results dropped). -/
def applyAct : Act → BridgeState → BridgeState
  | .setSec t, s => (Backend_setJavaSecurity t s).2
  | .ensure req cfg, s => (ensureReady req cfg s).2
  | .call req cfg r n, s => (invoke req cfg r n s).2
  | .down, s => teardown s

/-- The reachable bridge states: initState and everything an action can
produce from a reachable state. -/
inductive Reachable : BridgeState → Prop
  | init : Reachable initState
  | step (a : Act) {s : BridgeState} : Reachable s → Reachable (applyAct a s)

/- Theorems. -/

/-- C4: the log-level translation is total (toCommon and fromCommon are
total functions by construction), the round-trip fromCommon(toCommon(H))
is never less severe than the host level's natural managed counterpart
(ties round toward the more severe level), and for every pair of host
levels H1 < H2 the mapped levels preserve the ordering in the monotone
sense the spec defines: a higher host severity never maps to a lower
managed severity. -/
theorem C4_log_level_translation :
    (∀ h : HostLevel, (naturalManaged h).idx ≤ (fromCommon (toCommon h)).idx) ∧
    (∀ h1 h2 : HostLevel, h1.idx < h2.idx →
      (fromCommon (toCommon h1)).idx ≤ (fromCommon (toCommon h2)).idx) := by
  constructor
  · intro h; cases h <;> decide
  · intro h1 h2 hlt
    cases h1 <;> cases h2 <;> simp_all [HostLevel.idx] <;> decide

/-- Witness for C4 at concrete levels: the notice level round-trips to a
managed level at least as severe as its natural counterpart, and the
info-to-warning order is preserved. -/
theorem C4_log_level_translation_witness :
    (naturalManaged .notice).idx ≤ (fromCommon (toCommon .notice)).idx ∧
    (fromCommon (toCommon .info)).idx ≤ (fromCommon (toCommon .warning)).idx :=
  ⟨C4_log_level_translation.1 .notice,
   C4_log_level_translation.2 .info .warning (by decide)⟩

/-- C9: Backend_setJavaLogLevel returns the previously active level: for
any two consecutive calls installing level a and then level b, the second
call returns a. -/
theorem C9_set_log_level_returns_previous (a b current : Int) :
    (Backend_setJavaLogLevel b (Backend_setJavaLogLevel a current).2).1 = a := rfl

/-- C5 counterexample: the claim as stated fails on the lookup code that
is under src/. PG_GETCONFIGOPTION (Backend.h lines 36 to 42) passes
missing_ok false on host versions 9.1 and later, so looking up a key
absent from an empty host store raises a host error; it is not a NotFound
null result. -/
theorem C5_absent_key_counterexample :
    PG_GETCONFIGOPTION 90100 [] false "pljava.classpath" = .hostError ∧
    PG_GETCONFIGOPTION 90100 [] false "pljava.classpath" ≠ .nullAbsent := by
  constructor
  · rfl
  · intro h
    exact HostLookup.noConfusion h

/-- C5 (amended): for every configuration key absent from the host's
configuration store, the lookup path PG_GETCONFIGOPTION raises a host
error on every host version branch (missing_ok is passed false on 9.1 and
later, and the older one- and two-argument forms raise for unrecognized
keys), rather than returning a NotFound result; the lookup reads the store
without mutating it (it is a pure function of the store). -/
theorem C5_absent_key_raises_host_error (ver : Nat) (store : List (String × GucVar))
    (cp : Bool) (key : String) (h : lookupGuc store key = none) :
    PG_GETCONFIGOPTION ver store cp key = .hostError := by
  by_cases h1 : 90100 ≤ ver
  · simp [PG_GETCONFIGOPTION, h1, GetConfigOption3, h]
  · by_cases h2 : 90000 ≤ ver
    · simp [PG_GETCONFIGOPTION, h1, h2, GetConfigOption2, h]
    · simp [PG_GETCONFIGOPTION, h1, h2, GetConfigOption1, h]

/-- Witness for the amended C5 on a pre-9.0 host version and an absent
key. -/
theorem C5_absent_key_raises_host_error_witness :
    PG_GETCONFIGOPTION 80400 [] false "pljava.vmoptions" = .hostError :=
  C5_absent_key_raises_host_error 80400 [] false "pljava.vmoptions" rfl

/-- C10: on host versions 9.1 and later the PG_GETCONFIGOPTION macro
invokes the host lookup as GetConfigOption(key, false, true), with the
restrict-privileged flag set, so a lookup of a privileged-only variable by
an insufficiently privileged caller raises a host error and never discloses
the value. -/
theorem C10_privileged_key_not_disclosed (ver : Nat) (hver : 90100 ≤ ver) :
    (∀ store cp key, PG_GETCONFIGOPTION ver store cp key
        = GetConfigOption3 store cp key false true) ∧
    (∀ store key g, lookupGuc store key = some g → g.privileged = true →
        PG_GETCONFIGOPTION ver store false key = .hostError) := by
  constructor
  · intro store cp key
    simp [PG_GETCONFIGOPTION, hver]
  · intro store key g hk hp
    simp [PG_GETCONFIGOPTION, hver, GetConfigOption3, hk, hp]

/-- Witness for C10 at a concrete version, store and privileged key. -/
theorem C10_privileged_key_not_disclosed_witness :
    PG_GETCONFIGOPTION 90100
        [("dynamic_library_path", ⟨"/usr/lib", true⟩)] false
        "dynamic_library_path" = .hostError :=
  (C10_privileged_key_not_disclosed 90100 (by decide)).2
    [("dynamic_library_path", ⟨"/usr/lib", true⟩)] "dynamic_library_path"
    ⟨"/usr/lib", true⟩ (by decide) rfl

/-- A second ensureReady call returns the same outcome and the same state
as the first: startup runs at most once and its outcome is remembered. -/
theorem ensureReady_idem (required : List String) (cfg : HostStore) (s : BridgeState) :
    ensureReady required cfg (ensureReady required cfg s).2 = ensureReady required cfg s := by
  cases hp : s.prs
  case uninitialized =>
    cases hc : readRequired cfg required <;> simp [ensureReady, hp, hc]
  all_goals simp [ensureReady, hp]

/-- C2: ensureReady is idempotent: for every process state and every number
of calls, the (n+1)-th call in a run of identical ensureReady calls yields
the same terminal outcome (Ready, or the same Failed value) and the same
state as the first call. -/
theorem C2_ensureReady_idempotent (required : List String) (cfg : HostStore)
    (n : Nat) (s : BridgeState) :
    ensureReadyN required cfg n s = ensureReady required cfg s := by
  induction n generalizing s with
  | zero => rfl
  | succ n ih => rw [ensureReadyN, ih, ensureReady_idem]

/-- C1: the trust posture is one-shot: the posture selected by
Backend_setJavaSecurity before the first ensureReady call is the posture
recorded in the startup parameters the embedded runtime observes at
startup, and once the runtime has reached Ready any further
Backend_setJavaSecurity call signals Misuse and leaves the whole state,
the live runtime's posture included, unchanged. -/
theorem C1_trust_posture_one_shot (t t2 : Bool) (required : List String)
    (cfg : HostStore) (s : BridgeState) (h0 : s.prs = .uninitialized)
    (hready : (ensureReady required cfg (Backend_setJavaSecurity t s).2).1 = .ready) :
    ((ensureReady required cfg (Backend_setJavaSecurity t s).2).2.runtime).map
        RuntimeParams.posture
        = some (if t then TrustTier.trusted else TrustTier.untrusted) ∧
    Backend_setJavaSecurity t2
        (ensureReady required cfg (Backend_setJavaSecurity t s).2).2
        = (.misuse, (ensureReady required cfg (Backend_setJavaSecurity t s).2).2) := by
  cases hc : readRequired cfg required <;>
    simp_all [ensureReady, Backend_setJavaSecurity, h0, hc]

/-- Witness for C1: posture chosen untrusted before startup is the posture
the runtime observes, and a later call to switch to trusted is rejected as
Misuse with the state unchanged. -/
theorem C1_trust_posture_one_shot_witness :
    ((ensureReady ["cp"] [("cp", "/x")]
        (Backend_setJavaSecurity false initState).2).2.runtime).map
        RuntimeParams.posture = some TrustTier.untrusted ∧
    Backend_setJavaSecurity true
        (ensureReady ["cp"] [("cp", "/x")] (Backend_setJavaSecurity false initState).2).2
        = (.misuse,
           (ensureReady ["cp"] [("cp", "/x")]
             (Backend_setJavaSecurity false initState).2).2) :=
  C1_trust_posture_one_shot false true ["cp"] [("cp", "/x")] initState rfl (by decide)

/-- C3: startup failure is sticky and never retried: with a required key
missing, the first ensureReady from the initial state returns Failed with
ConfigMissing and a startup-attempt count of exactly 1; a repeated
ensureReady returns the same Failed value without touching the state (so
the attempt count stays 1); and invoke fails immediately with an
Initialization error, also without touching the state, so no routine is
ever resolved or executed (both counters stay 0) and any number of further
invoke calls fail the same way. -/
theorem C3_startup_failure_sticky (required : List String) (cfg : HostStore)
    (k : String) (routines : String → RoutineOutcome) (name : String)
    (hmiss : readRequired cfg required = .error k) :
    (ensureReady required cfg initState).1 = .failed (.configMissing k) ∧
    (ensureReady required cfg initState).2.startAttempts = 1 ∧
    ensureReady required cfg (ensureReady required cfg initState).2
        = (.failed (.configMissing k), (ensureReady required cfg initState).2) ∧
    invoke required cfg routines name (ensureReady required cfg initState).2
        = (.initError, (ensureReady required cfg initState).2) ∧
    (ensureReady required cfg initState).2.resolveCount = 0 ∧
    (ensureReady required cfg initState).2.execCount = 0 := by
  simp [ensureReady, invoke, initState, hmiss]

/-- Witness for C3: a single required key absent from an empty store. -/
theorem C3_startup_failure_sticky_witness :
    (ensureReady ["cp"] [] initState).1 = .failed (.configMissing "cp") ∧
    (ensureReady ["cp"] [] initState).2.startAttempts = 1 ∧
    ensureReady ["cp"] [] (ensureReady ["cp"] [] initState).2
        = (.failed (.configMissing "cp"), (ensureReady ["cp"] [] initState).2) ∧
    invoke ["cp"] [] (fun _ => RoutineOutcome.value "hi") "f"
        (ensureReady ["cp"] [] initState).2
        = (.initError, (ensureReady ["cp"] [] initState).2) ∧
    (ensureReady ["cp"] [] initState).2.resolveCount = 0 ∧
    (ensureReady ["cp"] [] initState).2.execCount = 0 :=
  C3_startup_failure_sticky ["cp"] [] "cp" (fun _ => RoutineOutcome.value "hi") "f" rfl

/-- C6: a ManagedError raised by an executed routine is returned to the
host as a host-level error with the original diagnostic message intact,
ProcessRuntimeState is unchanged by the error, and a subsequent invocation
of another routine from the resulting state still succeeds normally. -/
theorem C6_managed_error_converted (required : List String) (cfg : HostStore)
    (routines : String → RoutineOutcome) (name name2 msg v : String)
    (s : BridgeState) (hs : s.prs = .ready)
    (h1 : routines name = .managedError msg)
    (h2 : routines name2 = .value v) :
    (invoke required cfg routines name s).1 = .managedHostError msg ∧
    (invoke required cfg routines name s).2.prs = s.prs ∧
    (invoke required cfg routines name2 (invoke required cfg routines name s).2).1
        = .success v := by
  simp [invoke, ensureReady, hs, h1, h2]

/-- Witness for C6 on a Ready state with a routine raising a managed
error and another routine returning a value. -/
theorem C6_managed_error_converted_witness :
    (invoke [] []
        (fun n => if n = "bad" then RoutineOutcome.managedError "boom"
                  else RoutineOutcome.value "hi") "bad"
        (ensureReady [] [] initState).2).1 = .managedHostError "boom" ∧
    (invoke [] []
        (fun n => if n = "bad" then RoutineOutcome.managedError "boom"
                  else RoutineOutcome.value "hi") "bad"
        (ensureReady [] [] initState).2).2.prs
        = (ensureReady [] [] initState).2.prs ∧
    (invoke [] []
        (fun n => if n = "bad" then RoutineOutcome.managedError "boom"
                  else RoutineOutcome.value "hi") "ok"
        (invoke [] []
          (fun n => if n = "bad" then RoutineOutcome.managedError "boom"
                    else RoutineOutcome.value "hi") "bad"
          (ensureReady [] [] initState).2).2).1 = .success "hi" :=
  C6_managed_error_converted [] []
    (fun n => if n = "bad" then RoutineOutcome.managedError "boom"
              else RoutineOutcome.value "hi")
    "bad" "ok" "boom" "hi" (ensureReady [] [] initState).2
    (by decide) (by decide) (by decide)

/-- C7: a NativeFault arising during invoke is never converted into a
recoverable managed host error, and whenever the runtime is Ready (so the
routine actually runs) the outcome surfaced to the host is fatal. -/
theorem C7_native_fault_is_fatal (required : List String) (cfg : HostStore)
    (routines : String → RoutineOutcome) (name : String) (s : BridgeState)
    (h1 : routines name = .nativeFault) :
    (∀ msg, (invoke required cfg routines name s).1 ≠ .managedHostError msg) ∧
    ((ensureReady required cfg s).1 = .ready →
      (invoke required cfg routines name s).1 = .fatalFault) := by
  rcases he : ensureReady required cfg s with ⟨o, s1⟩
  cases o <;> simp [invoke, he, h1]

/-- Witness for C7: a faulting routine surfaces as fatal and not as a
managed host error. -/
theorem C7_native_fault_is_fatal_witness :
    (invoke [] [] (fun _ => RoutineOutcome.nativeFault) "f" initState).1
        ≠ .managedHostError "boom" ∧
    (invoke [] [] (fun _ => RoutineOutcome.nativeFault) "f" initState).1
        = .fatalFault :=
  ⟨(C7_native_fault_is_fatal [] [] (fun _ => RoutineOutcome.nativeFault) "f"
      initState rfl).1 "boom",
   (C7_native_fault_is_fatal [] [] (fun _ => RoutineOutcome.nativeFault) "f"
      initState rfl).2 (by decide)⟩

/-- Every action moves ProcessRuntimeState weakly forward in rank. -/
theorem applyAct_rank_mono (a : Act) (s : BridgeState) :
    s.prs.rank ≤ (applyAct a s).prs.rank := by
  cases a with
  | setSec t =>
      cases hp : s.prs <;> simp [applyAct, Backend_setJavaSecurity, hp]
  | ensure req cfg =>
      cases hp : s.prs
      case uninitialized =>
        cases hc : readRequired cfg req <;>
          simp [applyAct, ensureReady, hp, hc, PRS.rank]
      all_goals simp [applyAct, ensureReady, hp]
  | call req cfg r n =>
      cases hp : s.prs
      case uninitialized =>
        cases hc : readRequired cfg req
        case error => simp [applyAct, invoke, ensureReady, hp, hc, PRS.rank]
        case ok =>
          cases hr : r n <;>
            simp [applyAct, invoke, ensureReady, hp, hc, hr, PRS.rank]
      case ready =>
        cases hr : r n <;>
          simp [applyAct, invoke, ensureReady, hp, hr, PRS.rank]
      all_goals simp [applyAct, invoke, ensureReady, hp]
  | down =>
      cases hp : s.prs <;> simp [applyAct, teardown, hp, PRS.rank]

/-- No action re-enters Uninitialized: a state after an action is
Uninitialized only if it already was before. -/
theorem applyAct_no_reentry (a : Act) (s : BridgeState) :
    (applyAct a s).prs = .uninitialized → s.prs = .uninitialized := by
  cases a with
  | setSec t =>
      cases hp : s.prs <;> simp [applyAct, Backend_setJavaSecurity, hp]
  | ensure req cfg =>
      cases hp : s.prs
      case uninitialized =>
        cases hc : readRequired cfg req <;>
          simp [applyAct, ensureReady, hp, hc]
      all_goals simp [applyAct, ensureReady, hp]
  | call req cfg r n =>
      cases hp : s.prs
      case uninitialized =>
        cases hc : readRequired cfg req
        case error => simp [applyAct, invoke, ensureReady, hp, hc]
        case ok =>
          cases hr : r n <;>
            simp [applyAct, invoke, ensureReady, hp, hc, hr]
      case ready =>
        cases hr : r n <;>
          simp [applyAct, invoke, ensureReady, hp, hr]
      all_goals simp [applyAct, invoke, ensureReady, hp]
  | down =>
      cases hp : s.prs <;> simp [applyAct, teardown, hp]

/-- In a reachable state that is still Uninitialized the runtime has not
started, so no startup parameters are recorded. -/
theorem reachable_uninit_no_runtime {s : BridgeState} (h : Reachable s) :
    s.prs = .uninitialized → s.runtime = none := by
  induction h with
  | init => intro _; rfl
  | step a h ih =>
      intro hu
      have hs := applyAct_no_reentry a _ hu
      have hrt := ih hs
      cases a with
      | setSec t => simp [applyAct, Backend_setJavaSecurity, hs, hrt]
      | ensure req cfg =>
          cases hc : readRequired cfg req <;>
            simp [applyAct, ensureReady, hs, hc] at hu
      | call req cfg r n =>
          cases hc : readRequired cfg req
          case error => simp [applyAct, invoke, ensureReady, hs, hc] at hu
          case ok =>
            cases hr : r n <;>
              simp [applyAct, invoke, ensureReady, hs, hc, hr] at hu
      | down => simp [applyAct, teardown, hs, hrt]

/-- Once the runtime has started with its startup parameters, no action
changes them: the trust tier in force stays fixed for the runtime's
lifetime. -/
theorem applyAct_runtime_const (a : Act) {s : BridgeState} (h : Reachable s)
    (rp : RuntimeParams) (hr : s.runtime = some rp) :
    (applyAct a s).runtime = some rp := by
  have huninit : s.prs ≠ .uninitialized := by
    intro hu
    rw [reachable_uninit_no_runtime h hu] at hr
    exact Option.noConfusion hr
  cases a with
  | setSec t =>
      cases hp : s.prs <;> simp [applyAct, Backend_setJavaSecurity, hp, hr]
  | ensure req cfg =>
      cases hp : s.prs
      case uninitialized => exact absurd hp huninit
      all_goals simp [applyAct, ensureReady, hp, hr]
  | call req cfg r n =>
      cases hp : s.prs
      case uninitialized => exact absurd hp huninit
      case ready =>
        cases hro : r n <;>
          simp [applyAct, invoke, ensureReady, hp, hro, hr]
      all_goals simp [applyAct, invoke, ensureReady, hp, hr]
  | down =>
      cases hp : s.prs <;> simp [applyAct, teardown, hp, hr]

/-- A routine body runs only against a Ready runtime: whenever invoke has
executed anything (the execution counter moved), the state it ran in is
Ready. -/
theorem invoke_exec_only_ready (required : List String) (cfg : HostStore)
    (routines : String → RoutineOutcome) (name : String) (s : BridgeState) :
    (invoke required cfg routines name s).2.execCount ≠ s.execCount →
    (invoke required cfg routines name s).2.prs = .ready := by
  cases hp : s.prs
  case uninitialized =>
    cases hc : readRequired cfg required
    case error => simp [invoke, ensureReady, hp, hc]
    case ok =>
      cases hr : routines name <;>
        simp [invoke, ensureReady, hp, hc, hr]
  case ready =>
    cases hr : routines name <;>
      simp [invoke, ensureReady, hp, hr]
  all_goals simp [invoke, ensureReady, hp]

/-- C8: state-machine invariants. BridgeState carries exactly one
ProcessRuntimeState field and at most one recorded startup-parameter
record per process by construction; on every reachable state,
ProcessRuntimeState only moves forward in rank and never re-enters
Uninitialized, the startup parameters (the TrustTier in force included)
never change once the runtime has started, and a routine executes only
while ProcessRuntimeState is Ready. -/
theorem C8_state_machine_invariants :
    (∀ s : BridgeState, Reachable s → ∀ a : Act,
        s.prs.rank ≤ (applyAct a s).prs.rank) ∧
    (∀ s : BridgeState, Reachable s → ∀ a : Act,
        (applyAct a s).prs = .uninitialized → s.prs = .uninitialized) ∧
    (∀ s : BridgeState, Reachable s → ∀ rp : RuntimeParams,
        s.runtime = some rp → ∀ a : Act, (applyAct a s).runtime = some rp) ∧
    (∀ s : BridgeState, Reachable s →
        ∀ (required : List String) (cfg : HostStore)
          (routines : String → RoutineOutcome) (name : String),
        (invoke required cfg routines name s).2.execCount ≠ s.execCount →
        (invoke required cfg routines name s).2.prs = .ready) :=
  ⟨fun s _ a => applyAct_rank_mono a s,
   fun s _ a => applyAct_no_reentry a s,
   fun _ h rp hr a => applyAct_runtime_const a h rp hr,
   fun s _ required cfg routines name =>
     invoke_exec_only_ready required cfg routines name s⟩

/-- Witness for C8 on concrete reachable states: the initial state, the
state after one successful startup, and one executing invocation. -/
theorem C8_state_machine_invariants_witness :
    initState.prs.rank ≤ (applyAct .down initState).prs.rank ∧
    initState.prs = .uninitialized ∧
    (applyAct .down (applyAct (.ensure [] []) initState)).runtime
        = some ⟨TrustTier.trusted, []⟩ ∧
    (invoke [] [] (fun _ => RoutineOutcome.value "hi") "f" initState).2.prs
        = .ready :=
  ⟨C8_state_machine_invariants.1 initState Reachable.init .down,
   C8_state_machine_invariants.2.1 initState Reachable.init (.setSec true)
     (by decide),
   C8_state_machine_invariants.2.2.1 (applyAct (.ensure [] []) initState)
     (Reachable.step (.ensure [] []) Reachable.init) ⟨TrustTier.trusted, []⟩
     (by decide) .down,
   C8_state_machine_invariants.2.2.2 initState Reachable.init [] []
     (fun _ => RoutineOutcome.value "hi") "f" (by decide)⟩

end PLJava
